import Mathlib

/-!
Shallow embedding of the agrosense Context Bus (`src/agrosense/core/mcp_client.py`),
the alert dispatch tool (`src/agrosense/tools/n8n_alert_tool.py`) and the
conversation gateway endpoints (`src/agrosense/main.py`), together with
theorems settling the frozen claims about them.

The schema module (`src/agrosense/core/schemas.py`) is not present in the
repository snapshot; its enum families and record types are modelled from the
spec (§3, §4.1) and the repository's own tests (`tests/test_schemas.py`,
`tests/test_mcp_client.py`), which pin the member value strings and defaults.

Python `dict`s are embedded as association lists with Python-dict semantics
(assignment replaces in place, `del` removes the entry); Python exceptions
(`ValueError` from enum constructors, `ValueError` from `update_context` on a
missing session) are embedded as `Except String`.
-/

namespace Agrosense

/-- Modelled from the spec: `AssetType` enum of `core/schemas.py` (missing from
the snapshot). Spec §3: asset category enum {CROP, LIVESTOCK, GENERAL};
`tests/test_schemas.py` pins the member value strings (`AssetType("CROP")`
succeeds, `AssetType("INSECT")` raises). -/
inductive AssetType where
  | CROP
  | LIVESTOCK
  | GENERAL
deriving DecidableEq, Repr

/-- Python `AssetType(s)`: the enum value-lookup constructor; `none` models the
`ValueError` raised on a string that is not a member value. -/
def AssetType.ofString? : String → Option AssetType
  | "CROP" => some .CROP
  | "LIVESTOCK" => some .LIVESTOCK
  | "GENERAL" => some .GENERAL
  | _ => none

/-- Python `.value` of an `AssetType` member. -/
def AssetType.value : AssetType → String
  | .CROP => "CROP"
  | .LIVESTOCK => "LIVESTOCK"
  | .GENERAL => "GENERAL"

/-- Modelled from the spec: `IntentType` enum of `core/schemas.py` (missing
from the snapshot). Spec §3: intent enum {disease_diagnosis, pest_management,
market_info, weather_advisory, general_advice}; `tests/test_schemas.py` pins
the lowercase member value strings. -/
inductive IntentType where
  | DISEASE_DIAGNOSIS
  | PEST_MANAGEMENT
  | MARKET_INFO
  | WEATHER_ADVISORY
  | GENERAL_ADVICE
deriving DecidableEq, Repr

/-- Python `IntentType(s)`; `none` models the `ValueError` on a non-member. -/
def IntentType.ofString? : String → Option IntentType
  | "disease_diagnosis" => some .DISEASE_DIAGNOSIS
  | "pest_management" => some .PEST_MANAGEMENT
  | "market_info" => some .MARKET_INFO
  | "weather_advisory" => some .WEATHER_ADVISORY
  | "general_advice" => some .GENERAL_ADVICE
  | _ => none

/-- Python `.value` of an `IntentType` member. -/
def IntentType.value : IntentType → String
  | .DISEASE_DIAGNOSIS => "disease_diagnosis"
  | .PEST_MANAGEMENT => "pest_management"
  | .MARKET_INFO => "market_info"
  | .WEATHER_ADVISORY => "weather_advisory"
  | .GENERAL_ADVICE => "general_advice"

/-- Modelled from the spec: `Severity` enum of `core/schemas.py` (missing from
the snapshot). Spec §3: {LOW, MEDIUM, HIGH, CRITICAL}; tests use uppercase
member value strings ("HIGH"). -/
inductive Severity where
  | LOW
  | MEDIUM
  | HIGH
  | CRITICAL
deriving DecidableEq, Repr

/-- Python `Severity(s)`; `none` models the `ValueError` on a non-member. -/
def Severity.ofString? : String → Option Severity
  | "LOW" => some .LOW
  | "MEDIUM" => some .MEDIUM
  | "HIGH" => some .HIGH
  | "CRITICAL" => some .CRITICAL
  | _ => none

/-- Python `.value` of a `Severity` member. -/
def Severity.value : Severity → String
  | .LOW => "LOW"
  | .MEDIUM => "MEDIUM"
  | .HIGH => "HIGH"
  | .CRITICAL => "CRITICAL"

/-- Modelled from the spec: `SourceDocument` of `core/schemas.py` (missing from
the snapshot). Fields per spec §3 and `tests/test_schemas.py` (content, source,
page, asset_type, score); the float score is embedded as `Rat`. -/
structure SourceDocument where
  content : String
  source : String
  page : Nat
  asset_type : AssetType
  score : Rat
deriving DecidableEq, Repr

/-- Modelled from the spec: `AutomationPayload` of `core/schemas.py` (missing
from the snapshot). Fields per spec §3 `alert_payload` (severity, region,
asset_category, message); `n8n_alert_tool.py` passes `asset_type` as the
enum's string value. -/
structure AutomationPayload where
  severity : Severity
  region : String
  asset_type : String
  message : String
deriving DecidableEq, Repr

/-- Modelled from the spec: `MCPContext` of `core/schemas.py` (missing from the
snapshot). Fields and defaults per spec §3 and `tests/test_mcp_client.py` /
`tests/test_schemas.py`: asset_type defaults GENERAL, intent defaults
general_advice, alert_triggered defaults false; the `final_diagnosis` pending
sentinel "Diagnosis pending." is pinned by `tests/test_agrosense_crew.py` and
`tests/run_crew.py`. The datetime `timestamp` is embedded as `Nat`, the
free-form `regional_data` dict as a string-keyed association list. -/
structure MCPContext where
  session_id : String
  query : String
  region : String
  asset_type : AssetType := .GENERAL
  asset_name : Option String := none
  intent : IntentType := .GENERAL_ADVICE
  retrieved_context : List SourceDocument := []
  regional_data : List (String × String) := []
  final_diagnosis : String := "Diagnosis pending."
  alert_triggered : Bool := false
  alert_severity : Option Severity := none
  alert_payload_detail : Option AutomationPayload := none
  timestamp : Nat := 0
deriving DecidableEq, Repr

/-- The Context Bus session map (`MCPClient._contexts`), a Python dict embedded
as an association list. -/
abbrev CtxMap := List (String × MCPContext)

/-- Python `dict.get(sid)`: first entry whose key equals `sid`. -/
def CtxMap.find? (m : CtxMap) (sid : String) : Option MCPContext :=
  match m with
  | [] => none
  | (k, c) :: rest => if k = sid then some c else CtxMap.find? rest sid

/-- Python `d[sid] = c`: replace the entry in place if the key is present,
else append. -/
def CtxMap.setKey (m : CtxMap) (sid : String) (c : MCPContext) : CtxMap :=
  match m with
  | [] => [(sid, c)]
  | (k, c0) :: rest =>
    if k = sid then (sid, c) :: rest else (k, c0) :: CtxMap.setKey rest sid c

/-- Python `del d[sid]`: remove the entry with that key. -/
def CtxMap.eraseKey (m : CtxMap) (sid : String) : CtxMap :=
  match m with
  | [] => []
  | (k, c0) :: rest =>
    if k = sid then rest else (k, c0) :: CtxMap.eraseKey rest sid

/-- Number of entries stored under `sid` (1 for a well-formed Python dict that
holds the key, 0 otherwise). -/
def CtxMap.countKey : CtxMap → String → Nat
  | [], _ => 0
  | (k, _) :: rest, sid => (if k = sid then 1 else 0) + CtxMap.countKey rest sid

/-- Embeds `MCPClient.create_session` (mcp_client.py lines 26-38): return the existing
record if the id is already present, else construct a record with schema
defaults and store it. -/
def create_session (m : CtxMap) (sid q r : String) : MCPContext × CtxMap :=
  match CtxMap.find? m sid with
  | some c => (c, m)
  | none =>
    let c : MCPContext := { session_id := sid, query := q, region := r }
    (c, CtxMap.setKey m sid c)

/-- A dynamically-typed Python value as passed through `update_context`'s
`**kwargs`. -/
inductive PyValue where
  | str (s : String)
  | bool (b : Bool)
  | severity (v : Severity)
  | assetType (a : AssetType)
  | intentType (i : IntentType)
  | docList (ds : List SourceDocument)
  | dict (d : List (String × String))
  | payload (p : AutomationPayload)
deriving DecidableEq, Repr

/-- Python `str.upper()`: per-character uppercase map (`Char.toUpper` agrees
with Python on the ASCII enum value strings this code passes through it). -/
def pyUpper (s : String) : String := String.mk (s.data.map Char.toUpper)

/-- Python `str.lower()`: per-character lowercase map. -/
def pyLower (s : String) : String := String.mk (s.data.map Char.toLower)

/-- Python `hasattr(context, key)` for the `MCPContext` fields. -/
def hasAttrMCP (k : String) : Bool :=
  ["session_id", "query", "region", "asset_type", "asset_name", "intent",
   "retrieved_context", "regional_data", "final_diagnosis", "alert_triggered",
   "alert_severity", "alert_payload_detail", "timestamp"].contains k

/-- The plain `setattr(context, key, value)` fallback branch of
`update_context`: direct assignment when the value's runtime type matches the
field (the only shapes the repository ever sends through this branch). -/
def setattrGeneric (c : MCPContext) (k : String) (v : PyValue) : MCPContext :=
  match k, v with
  | "session_id", .str s => { c with session_id := s }
  | "query", .str s => { c with query := s }
  | "region", .str s => { c with region := s }
  | "asset_type", .assetType a => { c with asset_type := a }
  | "asset_name", .str s => { c with asset_name := some s }
  | "intent", .intentType i => { c with intent := i }
  | "retrieved_context", .docList ds => { c with retrieved_context := ds }
  | "regional_data", .dict d => { c with regional_data := d }
  | "final_diagnosis", .str s => { c with final_diagnosis := s }
  | "alert_triggered", .bool b => { c with alert_triggered := b }
  | "alert_severity", .severity sv => { c with alert_severity := some sv }
  | "alert_payload_detail", .payload p => { c with alert_payload_detail := some p }
  | _, _ => c

/-- One iteration of the `update_context` kwargs loop (mcp_client.py lines
51-73): unknown keys are logged and skipped; `asset_type` and `alert_severity`
string values go through the bare enum constructor (a `ValueError` propagates,
embedded as `Except.error`); `intent` strings fall back to `GENERAL_ADVICE`
on `ValueError`; everything else is a direct `setattr`. -/
def applyKwarg (c : MCPContext) (k : String) (v : PyValue) :
    Except String MCPContext :=
  if ¬ hasAttrMCP k then Except.ok c
  else
    match k, v with
    | "retrieved_context", .docList ds =>
      Except.ok { c with retrieved_context := ds }
    | "asset_type", .str s =>
      match AssetType.ofString? (pyUpper s) with
      | some a => Except.ok { c with asset_type := a }
      | none => Except.error (String.append s " is not a valid AssetType")
    | "intent", .str s =>
      Except.ok { c with intent := (IntentType.ofString? (pyLower s)).getD .GENERAL_ADVICE }
    | "alert_severity", .str s =>
      match Severity.ofString? (pyUpper s) with
      | some sv => Except.ok { c with alert_severity := some sv }
      | none => Except.error (String.append s " is not a valid Severity")
    | _, _ => Except.ok (setattrGeneric c k v)

/-- The `update_context` kwargs loop: field writes mutate the record in place,
so writes made before a raised `ValueError` persist (the returned record is
the state reached when the error fired). -/
def applyKwargs (c : MCPContext) : List (String × PyValue) → MCPContext × Option String
  | [] => (c, none)
  | (k, v) :: rest =>
    match applyKwarg c k v with
    | Except.ok c' => applyKwargs c' rest
    | Except.error e => (c, some e)

/-- Embeds `MCPClient.update_context` (mcp_client.py lines 44-76). The record obtained
from the map is the stored object itself, so in-place field writes are visible
in the map even when a later kwarg raises; the final re-assignment
`self._contexts[session_id] = context` rebinds the same object. A missing
session raises `ValueError` (embedded as the error component). -/
def update_context (m : CtxMap) (sid : String) (kwargs : List (String × PyValue)) :
    Except String MCPContext × CtxMap :=
  match CtxMap.find? m sid with
  | none => (Except.error (String.append "Session ID not found: " sid), m)
  | some c =>
    match applyKwargs c kwargs with
    | (c', none) => (Except.ok c', CtxMap.setKey m sid c')
    | (c', some e) => (Except.error e, CtxMap.setKey m sid c')

/-- The diagnosis-status projection rendered inside
`MCPClient.get_full_context_summary` (mcp_client.py line 95):
`'COMPLETE' if len(context.final_diagnosis) > 100 else 'PENDING'`. -/
def diagnosisStatus (c : MCPContext) : String :=
  if c.final_diagnosis.length > 100 then "COMPLETE" else "PENDING"

/-- Embeds `MCPClient.get_full_context_summary` (mcp_client.py lines 78-98): the
fixed-format projection string, built exactly as the f-string does. -/
def get_full_context_summary (m : CtxMap) (sid : String) : String :=
  match CtxMap.find? m sid with
  | none => "No context found."
  | some c =>
    "\n--- MCP CONTEXT STATE (Session: " ++ c.session_id ++ ") ---\n" ++
    "[INPUT] Query: " ++ c.query ++ "\n" ++
    "[INPUT] Region: " ++ c.region ++ "\n" ++
    "[ROUTING] Asset Type: " ++ c.asset_type.value ++
    " | Specific Asset: " ++ (c.asset_name.getD "N/A") ++
    " | Intent: " ++ c.intent.value ++ "\n" ++
    "[KNOWLEDGE] Documents Retrieved: " ++ toString c.retrieved_context.length ++ "\n" ++
    "[ENVIRONMENTAL] Regional Data Keys: " ++ toString (c.regional_data.map Prod.fst) ++ "\n" ++
    "[OUTPUT] Diagnosis Status: " ++ diagnosisStatus c ++ "\n" ++
    "[ACTION] Alert Triggered: " ++ toString c.alert_triggered ++
    " (Severity: " ++ ((c.alert_severity.map Severity.value).getD "N/A") ++ ")\n" ++
    "-----------------------------------------------------------\n"

/-- Embeds `MCPClient.clear_session` (mcp_client.py lines 105-108): delete the entry
if present. -/
def clear_session (m : CtxMap) (sid : String) : CtxMap :=
  match CtxMap.find? m sid with
  | some _ => CtxMap.eraseKey m sid
  | none => m

/-- An `MCPClient` instance. `_contexts` is declared on the class
(mcp_client.py line 16) and `__init__` sets no instance attribute, so an
instance only shadows the class dict if it ever assigns `self._contexts`
itself — which no method does. `own_contexts` models an instance
`_contexts` attribute; Python attribute lookup falls back to the class
attribute when it is absent. -/
structure MCPClient where
  own_contexts : Option CtxMap := none
deriving DecidableEq, Repr

/-- Embeds `MCPClient.__init__` (mcp_client.py lines 18-20): `pass` — no instance
attribute is created. -/
def MCPClient.init : MCPClient := {}

/-- Python attribute lookup for `self._contexts`: the instance attribute if
present, else the class attribute `cls`. -/
def MCPClient.resolveContexts (inst : MCPClient) (cls : CtxMap) : CtxMap :=
  inst.own_contexts.getD cls

/-- Calling `self.create_session(...)` on an instance: `self._contexts[...] = ...` is
item assignment on whichever dict attribute lookup resolved, so it mutates
the class dict when the instance has no own attribute. Returns the record,
the (unchanged) instance and the new class dict. -/
def MCPClient.createSession (inst : MCPClient) (cls : CtxMap) (sid q r : String) :
    MCPContext × MCPClient × CtxMap :=
  let d := inst.resolveContexts cls
  let (c, d') := create_session d sid q r
  match inst.own_contexts with
  | some _ => (c, { own_contexts := some d' }, cls)
  | none => (c, inst, d')

/-- Calling `self.get_context(...)` on an instance: a pure read through attribute
lookup. -/
def MCPClient.getContext (inst : MCPClient) (cls : CtxMap) (sid : String) :
    Option MCPContext :=
  CtxMap.find? (inst.resolveContexts cls) sid

/-- Calling `self.clear_session(...)` on an instance: `del self._contexts[sid]` is
item deletion on the resolved dict. -/
def MCPClient.clearSession (inst : MCPClient) (cls : CtxMap) (sid : String) :
    MCPClient × CtxMap :=
  let d := inst.resolveContexts cls
  let d' := clear_session d sid
  match inst.own_contexts with
  | some _ => ({ own_contexts := some d' }, cls)
  | none => (inst, d')

/-! ### The n8n alert dispatch tool (`tools/n8n_alert_tool.py`) -/

/-- Embeds `N8NAlertTool._run` (n8n_alert_tool.py lines 38-82). `url` is the
module-level `N8N_WEBHOOK_URL` (environment-dependent). The webhook response
status is the hardcoded constant 200 on both the mock and the real branch
(lines 57-64); `update_context` is reached only when it is 200, and its
Python exceptions would be caught by the blanket `except Exception` (we carry
the `Except` through that handler). Returns the outcome string and the class
session map after the call. -/
def N8NAlertTool.run (url : String) (m : CtxMap)
    (session_id severity message : String) : String × CtxMap :=
  match CtxMap.find? m session_id with
  | none => ("ERROR: Session ID " ++ session_id ++ " not found.", m)
  | some context =>
    let validated_severity := (Severity.ofString? (pyUpper severity)).getD Severity.LOW
    let payload : AutomationPayload :=
      { severity := validated_severity, region := context.region,
        asset_type := context.asset_type.value, message := message }
    let response_status : Nat :=
      if url = "https://webhook.site/mock-n8n-endpoint" then 200 else 200
    let response_text : String :=
      if url = "https://webhook.site/mock-n8n-endpoint" then
        "MOCK SUCCESS: Alert simulated and logged."
      else
        "SUCCESS: Alert sent to " ++ url ++ "."
    if response_status = 200 then
      match update_context m session_id
        [("alert_triggered", PyValue.bool true),
         ("alert_severity", PyValue.severity validated_severity),
         ("alert_payload_detail", PyValue.payload payload)] with
      | (Except.ok _, m') =>
        ("ALERT SUCCESS: " ++ validated_severity.value ++
         " alert sent successfully. Context updated for session " ++ session_id ++
         ". Response: " ++ response_text, m')
      | (Except.error e, m') =>
        ("ALERT FAILED: An unexpected error occurred: " ++ e, m')
    else
      ("ALERT FAILED (Status " ++ toString response_status ++
       "): Webhook call failed. Context NOT updated.", m)

/-! ### The conversation gateway (`main.py`) -/

/-- The constant `MAX_SESSION_MESSAGES` (main.py line 103). -/
def MAX_SESSION_MESSAGES : Nat := 100

/-- One entry of a gateway session's message log (role, content, timestamp;
the ISO timestamp string is embedded as `Nat`). -/
structure Message where
  role : String
  content : String
  timestamp : Nat
deriving DecidableEq, Repr

/-- The `classification` sub-dict written by the background pipeline
(main.py lines 640-644). -/
structure Classification where
  asset_type : String
  asset_name : String
  intent : String
deriving DecidableEq, Repr

/-- A gateway session-store entry (the `session_data` dict of main.py).
Optional fields model dict keys that may be absent or `None`; fields read
through `.get(key, default)` carry that default. -/
structure SessionData where
  session_id : String
  farmer_id : Option String := none
  created_at : Nat := 0
  client_ip : Option String := none
  messages : List Message := []
  status : String := "chatting"
  diagnosis : Option String := none
  last_diagnosis : Option String := none
  classification : Option Classification := none
  alert_triggered : Bool := false
  alert_severity : Option String := none
  extracted_info : Option String := none
  error : Option String := none
deriving DecidableEq, Repr

/-- Python truthiness of an optional string (`None`, a missing key and `""`
are all falsy). -/
def isTruthy : Option String → Bool
  | none => false
  | some s => s ≠ ""

/-- The chat request body (`ChatRequest` of main.py). -/
structure ChatRequest where
  message : String
  session_id : Option String := none
  farmer_id : Option String := none
deriving DecidableEq, Repr

/-- The chat response body (`ChatResponse` of main.py). -/
structure ChatResponse where
  message : String
  session_id : String
  requires_action : Bool
  action_type : Option String := none
  classification : Option Classification := none
  alert_triggered : Bool := false
  alert_severity : Option String := none
deriving DecidableEq, Repr

/-- What `generate_conversational_response` returned (an external generation
call, passed in as an oracle). -/
structure AIResponse where
  message : String
  is_ready_for_diagnosis : Bool
deriving DecidableEq, Repr

/-- Result of one chat turn: the HTTP response, the session-store entry after
the turn, and whether the conversational generation call was made. -/
structure ChatResult where
  response : ChatResponse
  session : SessionData
  generationCalled : Bool
deriving DecidableEq, Repr

/-- Python `request.session_id or generate_session_id()`: `or` is
truthiness-based, so an empty string also falls through to a fresh id. -/
def orGenerate (o : Option String) (fresh : String) : String :=
  match o with
  | some s => if s = "" then fresh else s
  | none => fresh

/-- The `/api/v1/chat` handler `chat` (main.py lines 671-791), with the
external effects passed in: `newId` the id `generate_session_id` would mint,
`stored` the `get_session` result, `now` the turn's timestamp, `ai` the
conversational generation oracle, `extracted` the `extract_information`
oracle. Rate limiting and the LangChain memory mirror (which never feeds back
into the session store) are outside this model. Branch order as in the code:
message cap (line 706, before the user message is appended and without a
save), completed-with-diagnosis consumption (lines 721-741), processing
(lines 743-749), conversational generation with optional pipeline launch
(lines 751-791). -/
def chat (req : ChatRequest) (newId : String) (clientIp : String)
    (stored : Option SessionData) (now : Nat) (ai : AIResponse)
    (extracted : String) : ChatResult :=
  let sid := orGenerate req.session_id newId
  let s0 := stored.getD
    { session_id := sid, farmer_id := req.farmer_id, created_at := now,
      messages := [], status := "chatting", client_ip := some clientIp }
  if s0.messages.length ≥ MAX_SESSION_MESSAGES then
    { response :=
        { message := "You've reached the maximum number of messages for this session. Please start a new conversation.",
          session_id := sid, requires_action := false },
      session := s0, generationCalled := false }
  else
    let s1 := { s0 with messages := s0.messages ++ [⟨"user", req.message, now⟩] }
    if s1.status = "completed" ∧ isTruthy s1.diagnosis then
      let diagnosis := s1.diagnosis.getD ""
      let s2 : SessionData :=
        { s1 with
          last_diagnosis := some diagnosis,
          diagnosis := none,
          status := "chatting" }
      { response :=
          { message := diagnosis, session_id := sid, requires_action := false,
            classification := s1.classification,
            alert_triggered := s1.alert_triggered,
            alert_severity := s1.alert_severity },
        session := s2, generationCalled := false }
    else if s1.status = "processing" then
      { response :=
          { message := "⏳ Your comprehensive diagnosis is still being prepared. Please check back in a moment.",
            session_id := sid, requires_action := false },
        session := s1, generationCalled := false }
    else
      let s2 := { s1 with messages := s1.messages ++ [⟨"assistant", ai.message, now⟩] }
      if ai.is_ready_for_diagnosis then
        let s3 : SessionData :=
          { s2 with extracted_info := some extracted, status := "processing" }
        { response :=
            { message := ai.message, session_id := sid, requires_action := true,
              action_type := some "diagnosis_started" },
          session := s3, generationCalled := true }
      else
        { response :=
            { message := ai.message, session_id := sid, requires_action := false },
          session := s2, generationCalled := true }

/-- The `/api/v1/status/{session_id}` response body (main.py lines 815-836). -/
structure StatusResponse where
  session_id : String
  status : String
  message : String
  diagnosis : Option String := none
  classification : Option Classification := none
  alert_triggered : Option Bool := none
  alert_severity : Option String := none
  error : Option String := none
deriving DecidableEq, Repr

/-- The `/api/v1/status/{session_id}` handler `check_status` (main.py lines
804-842): 404 (embedded as `Except.error 404`) when the session is absent;
a stored "completed" status with a falsy diagnosis is reported back as
"processing" (lines 829-831). -/
def check_status (sid : String) (stored : Option SessionData) :
    Except Nat StatusResponse :=
  match stored with
  | none => Except.error 404
  | some s =>
    let status := s.status
    let base : StatusResponse :=
      { session_id := sid, status := status,
        message := "Status: " ++ status }
    if status = "completed" then
      if isTruthy s.diagnosis then
        Except.ok
          { base with
            diagnosis := s.diagnosis,
            classification := s.classification,
            alert_triggered := some s.alert_triggered,
            alert_severity := s.alert_severity,
            message := "Diagnosis ready!" }
      else
        Except.ok
          { base with
            status := "processing",
            message := "Still processing..." }
    else if status = "failed" then
      Except.ok
        { base with
          message := "Analysis failed",
          error := some (s.error.getD "Unknown error") }
    else
      Except.ok base

/-- Whether an embedded Python call completed without raising. -/
def isOkE {ε α : Type} : Except ε α → Bool
  | Except.ok _ => true
  | Except.error _ => false

/-! ### Dictionary lemmas -/

theorem CtxMap.find?_setKey_self (m : CtxMap) (sid : String) (c : MCPContext) :
    CtxMap.find? (CtxMap.setKey m sid c) sid = some c := by
  induction m with
  | nil => simp [CtxMap.setKey, CtxMap.find?]
  | cons p rest ih =>
    obtain ⟨k, c0⟩ := p
    by_cases h : k = sid
    · simp [CtxMap.setKey, CtxMap.find?, h]
    · simp [CtxMap.setKey, CtxMap.find?, h, ih]

theorem CtxMap.countKey_eq_zero_of_find?_none (m : CtxMap) (sid : String)
    (h : CtxMap.find? m sid = none) : CtxMap.countKey m sid = 0 := by
  induction m with
  | nil => simp [CtxMap.countKey]
  | cons p rest ih =>
    obtain ⟨k, c0⟩ := p
    by_cases hk : k = sid
    · simp [CtxMap.find?, hk] at h
    · simp [CtxMap.find?, hk] at h
      simp [CtxMap.countKey, hk, ih h]

theorem CtxMap.find?_none_of_countKey_zero (m : CtxMap) (sid : String)
    (h : CtxMap.countKey m sid = 0) : CtxMap.find? m sid = none := by
  induction m with
  | nil => simp [CtxMap.find?]
  | cons p rest ih =>
    obtain ⟨k, c0⟩ := p
    by_cases hk : k = sid
    · simp [CtxMap.countKey, hk] at h
    · simp [CtxMap.countKey, hk] at h
      simp [CtxMap.find?, hk, ih h]

theorem CtxMap.one_le_countKey_of_find?_some (m : CtxMap) (sid : String)
    (c : MCPContext) (h : CtxMap.find? m sid = some c) :
    1 ≤ CtxMap.countKey m sid := by
  induction m with
  | nil => simp [CtxMap.find?] at h
  | cons p rest ih =>
    obtain ⟨k, c0⟩ := p
    by_cases hk : k = sid
    · simp [CtxMap.countKey, hk]
    · simp [CtxMap.find?, hk] at h
      have := ih h
      simp [CtxMap.countKey, hk]
      omega

theorem CtxMap.countKey_setKey_of_none (m : CtxMap) (sid : String)
    (c : MCPContext) (h : CtxMap.find? m sid = none) :
    CtxMap.countKey (CtxMap.setKey m sid c) sid = 1 := by
  induction m with
  | nil => simp [CtxMap.setKey, CtxMap.countKey]
  | cons p rest ih =>
    obtain ⟨k, c0⟩ := p
    by_cases hk : k = sid
    · simp [CtxMap.find?, hk] at h
    · simp [CtxMap.find?, hk] at h
      simp [CtxMap.setKey, CtxMap.countKey, hk, ih h]

theorem CtxMap.find?_eraseKey_self (m : CtxMap) (sid : String)
    (h : CtxMap.countKey m sid ≤ 1) :
    CtxMap.find? (CtxMap.eraseKey m sid) sid = none := by
  induction m with
  | nil => simp [CtxMap.eraseKey, CtxMap.find?]
  | cons p rest ih =>
    obtain ⟨k, c0⟩ := p
    by_cases hk : k = sid
    · simp [CtxMap.countKey, hk] at h
      simp [CtxMap.eraseKey, hk]
      exact CtxMap.find?_none_of_countKey_zero rest sid (by omega)
    · simp [CtxMap.countKey, hk] at h
      simp [CtxMap.eraseKey, CtxMap.find?, hk]
      exact ih h

/-! ### Claim theorems -/

/-- C1. For every session id, query and region, calling `create_session` a
second time with the same session id returns the record stored by the first
call unchanged (the second call's query and region arguments are ignored), and
the stored map still holds exactly one record for that id. The hypothesis is
dict well-formedness (a Python dict holds a key at most once). -/
theorem create_session_idempotent (m : CtxMap) (sid q r q' r' : String)
    (hwf : CtxMap.countKey m sid ≤ 1) :
    (create_session (create_session m sid q r).2 sid q' r').1 =
      (create_session m sid q r).1 ∧
    (create_session (create_session m sid q r).2 sid q' r').2 =
      (create_session m sid q r).2 ∧
    CtxMap.find? (create_session m sid q r).2 sid =
      some (create_session m sid q r).1 ∧
    CtxMap.countKey (create_session m sid q r).2 sid = 1 := by
  cases h : CtxMap.find? m sid with
  | some c =>
    have h1 := CtxMap.one_le_countKey_of_find?_some m sid c h
    simp [create_session, h]
    omega
  | none =>
    have hk := CtxMap.find?_setKey_self m sid
      { session_id := sid, query := q, region := r }
    simp [create_session, h, hk, CtxMap.countKey_setKey_of_none m sid _ h]

/-- Witness for C1 at a concrete input: the empty map, session "s-1". -/
theorem create_session_idempotent_witness :
    CtxMap.countKey [] "s-1" ≤ 1 ∧
    ((create_session (create_session [] "s-1" "q" "r").2 "s-1" "q2" "r2").1 =
      (create_session [] "s-1" "q" "r").1 ∧
    (create_session (create_session [] "s-1" "q" "r").2 "s-1" "q2" "r2").2 =
      (create_session [] "s-1" "q" "r").2 ∧
    CtxMap.find? (create_session [] "s-1" "q" "r").2 "s-1" =
      some (create_session [] "s-1" "q" "r").1 ∧
    CtxMap.countKey (create_session [] "s-1" "q" "r").2 "s-1" = 1) :=
  ⟨by decide, create_session_idempotent [] "s-1" "q" "r" "q2" "r2" (by decide)⟩

/-- C2 counterexample. The claim says no enum-valued field update ever raises,
but `update_context` wraps only `intent` in a try/except: an unrecognized
`asset_type` string goes through the bare `AssetType(value.upper())`
constructor, whose `ValueError` propagates. Concretely, updating `asset_type`
to "INSECT" (the very string `tests/test_schemas.py` uses as a non-member) on
an existing session raises. -/
theorem update_context_asset_type_raises :
    isOkE (update_context [("s", { session_id := "s", query := "q", region := "r" })]
      "s" [("asset_type", PyValue.str "INSECT")]).1 = false := by
  decide

/-- C2 amended. Of the three enum-valued fields, only `intent` never raises on
a raw string (falling back to `GENERAL_ADVICE`); `asset_type` and
`alert_severity` raise a `ValueError` out of the update whenever the
uppercased string is not a member value. -/
theorem update_context_enum_coercion (m : CtxMap) (sid : String)
    (c : MCPContext) (s : String) (h : CtxMap.find? m sid = some c) :
    isOkE (update_context m sid [("intent", PyValue.str s)]).1 = true ∧
    (AssetType.ofString? (pyUpper s) = none →
      isOkE (update_context m sid [("asset_type", PyValue.str s)]).1 = false) ∧
    (Severity.ofString? (pyUpper s) = none →
      isOkE (update_context m sid [("alert_severity", PyValue.str s)]).1 = false) := by
  refine ⟨?_, ?_, ?_⟩
  · simp [update_context, h, applyKwargs, applyKwarg, hasAttrMCP, isOkE]
  · intro hbad
    simp [update_context, h, applyKwargs, applyKwarg, hasAttrMCP, hbad, isOkE]
  · intro hbad
    simp [update_context, h, applyKwargs, applyKwarg, hasAttrMCP, hbad, isOkE]

/-- Witness for C2's amended theorem at session "s" and raw string "urgent"
(not a member of any of the three enum families). -/
theorem update_context_enum_coercion_witness :
    CtxMap.find? [("s", { session_id := "s", query := "q", region := "r" })] "s" =
      some { session_id := "s", query := "q", region := "r" } ∧
    AssetType.ofString? (pyUpper "urgent") = none ∧
    Severity.ofString? (pyUpper "urgent") = none ∧
    (isOkE (update_context [("s", { session_id := "s", query := "q", region := "r" })]
      "s" [("intent", PyValue.str "urgent")]).1 = true ∧
    (AssetType.ofString? (pyUpper "urgent") = none →
      isOkE (update_context [("s", { session_id := "s", query := "q", region := "r" })]
        "s" [("asset_type", PyValue.str "urgent")]).1 = false) ∧
    (Severity.ofString? (pyUpper "urgent") = none →
      isOkE (update_context [("s", { session_id := "s", query := "q", region := "r" })]
        "s" [("alert_severity", PyValue.str "urgent")]).1 = false)) :=
  ⟨by decide, by decide, by decide,
   update_context_enum_coercion
     [("s", { session_id := "s", query := "q", region := "r" })] "s"
     { session_id := "s", query := "q", region := "r" } "urgent" (by decide)⟩

/-- C3 counterexample. The claim says the summary reports COMPLETE iff
`final_diagnosis` is non-empty and differs from the pending sentinel
"Diagnosis pending.", but the code reports COMPLETE iff the text is longer
than 100 characters: a genuine 20-character diagnosis is non-empty, differs
from the sentinel, and is still reported PENDING. -/
theorem diagnosisStatus_pending_counterexample :
    diagnosisStatus
      { session_id := "s", query := "q", region := "r",
        final_diagnosis := "Apply fungicide now." } = "PENDING" ∧
    ("Apply fungicide now." ≠ "") ∧
    ("Apply fungicide now." ≠ "Diagnosis pending.") := by
  refine ⟨by decide, by decide, by decide⟩

/-- C3 amended. The summary's diagnosis-status projection reports COMPLETE if
and only if `final_diagnosis` is strictly longer than 100 characters
(`'COMPLETE' if len(context.final_diagnosis) > 100 else 'PENDING'`);
otherwise it reports PENDING. -/
theorem diagnosisStatus_complete_iff (c : MCPContext) :
    (diagnosisStatus c = "COMPLETE" ↔ 100 < c.final_diagnosis.length) ∧
    (diagnosisStatus c = "PENDING" ↔ ¬ 100 < c.final_diagnosis.length) := by
  by_cases h : 100 < c.final_diagnosis.length
  · simp [diagnosisStatus, h]
  · simp [diagnosisStatus, h]

/-- C4. Updating the `intent` field through the bus with a string that is not
a member of the closed intent enum (after lowercasing) succeeds and sets the
record's intent to `GENERAL_ADVICE`. -/
theorem update_intent_fallback (m : CtxMap) (sid : String) (c : MCPContext)
    (s : String) (h : CtxMap.find? m sid = some c)
    (hbad : IntentType.ofString? (pyLower s) = none) :
    update_context m sid [("intent", PyValue.str s)] =
      (Except.ok { c with intent := IntentType.GENERAL_ADVICE },
       CtxMap.setKey m sid { c with intent := IntentType.GENERAL_ADVICE }) := by
  simp [update_context, h, applyKwargs, applyKwarg, hasAttrMCP, hbad]

/-- Witness for C4 at session "s" and the non-member intent string
"bad_unrecognized_intent" (as in `tests/test_mcp_client.py`). -/
theorem update_intent_fallback_witness :
    CtxMap.find? [("s", { session_id := "s", query := "q", region := "r" })] "s" =
      some { session_id := "s", query := "q", region := "r" } ∧
    IntentType.ofString? (pyLower "bad_unrecognized_intent") = none ∧
    update_context [("s", { session_id := "s", query := "q", region := "r" })]
        "s" [("intent", PyValue.str "bad_unrecognized_intent")] =
      (Except.ok
         { session_id := "s", query := "q", region := "r",
           intent := IntentType.GENERAL_ADVICE },
       CtxMap.setKey [("s", { session_id := "s", query := "q", region := "r" })]
         "s"
         { session_id := "s", query := "q", region := "r",
           intent := IntentType.GENERAL_ADVICE }) :=
  ⟨by decide, by decide,
   update_intent_fallback [("s", { session_id := "s", query := "q", region := "r" })]
     "s" { session_id := "s", query := "q", region := "r" }
     "bad_unrecognized_intent" (by decide) (by decide)⟩

/-- C5. A chat turn against a stored gateway state with status "completed" and
a non-null, non-empty diagnosis returns that diagnosis as the reply without a
generation call; afterwards the stored state has status "chatting" with the
diagnosis cleared, so the immediately following turn takes the ordinary
conversational path: its reply is the generation oracle's output, not the
stored diagnosis. -/
theorem chat_consumes_diagnosis_once (s : SessionData) (d : String)
    (req1 req2 : ChatRequest) (id1 id2 ip1 ip2 : String) (now1 now2 : Nat)
    (ai1 ai2 : AIResponse) (ex1 ex2 : String)
    (hstat : s.status = "completed") (hdiag : s.diagnosis = some d)
    (hne : d ≠ "") (hlen : s.messages.length + 1 < MAX_SESSION_MESSAGES) :
    (chat req1 id1 ip1 (some s) now1 ai1 ex1).response.message = d ∧
    (chat req1 id1 ip1 (some s) now1 ai1 ex1).generationCalled = false ∧
    (chat req1 id1 ip1 (some s) now1 ai1 ex1).session.status = "chatting" ∧
    (chat req1 id1 ip1 (some s) now1 ai1 ex1).session.diagnosis = none ∧
    (chat req2 id2 ip2 (some (chat req1 id1 ip1 (some s) now1 ai1 ex1).session)
      now2 ai2 ex2).response.message = ai2.message ∧
    (chat req2 id2 ip2 (some (chat req1 id1 ip1 (some s) now1 ai1 ex1).session)
      now2 ai2 ex2).generationCalled = true := by
  have h1 : ¬ s.messages.length ≥ MAX_SESSION_MESSAGES := by
    simp [MAX_SESSION_MESSAGES] at hlen ⊢; omega
  have h2 : ¬ (s.messages.length + 1) ≥ MAX_SESSION_MESSAGES := by
    simp [MAX_SESSION_MESSAGES] at hlen ⊢; omega
  by_cases hr : ai2.is_ready_for_diagnosis <;>
    simp [chat, h1, h2, hstat, hdiag, isTruthy, hne, hr]

/-- Witness for C5 at a concrete completed session holding the diagnosis
"You have blight." and a second-turn generation reply "Hello". -/
theorem chat_consumes_diagnosis_once_witness :
    (({ session_id := "s", status := "completed",
        diagnosis := some "You have blight." } : SessionData).status = "completed" ∧
     ("You have blight." : String) ≠ "" ∧
     ({ session_id := "s", status := "completed",
        diagnosis := some "You have blight." } : SessionData).messages.length + 1 <
       MAX_SESSION_MESSAGES) ∧
    ((chat { message := "hi" } "n1" "ip"
        (some { session_id := "s", status := "completed",
                diagnosis := some "You have blight." }) 0
        { message := "g1", is_ready_for_diagnosis := false } "e1").response.message =
      "You have blight." ∧
     (chat { message := "hi2" } "n2" "ip"
        (some (chat { message := "hi" } "n1" "ip"
          (some { session_id := "s", status := "completed",
                  diagnosis := some "You have blight." }) 0
          { message := "g1", is_ready_for_diagnosis := false } "e1").session) 1
        { message := "Hello", is_ready_for_diagnosis := false } "e2").response.message =
      "Hello") :=
  ⟨⟨by decide, by decide, by decide⟩,
   (chat_consumes_diagnosis_once
      { session_id := "s", status := "completed",
        diagnosis := some "You have blight." }
      "You have blight." { message := "hi" } { message := "hi2" }
      "n1" "n2" "ip" "ip" 0 1
      { message := "g1", is_ready_for_diagnosis := false }
      { message := "Hello", is_ready_for_diagnosis := false } "e1" "e2"
      (by decide) (by decide) (by decide) (by decide)).imp
     id (fun h => h.2.2.2.1)⟩

/-- C7. A chat turn against a stored gateway state whose message log already
holds at least `MAX_SESSION_MESSAGES` (100) messages is answered by the fixed
maximum-messages guidance reply, with `requires_action = false`, without a
conversational generation call, and the stored state is left unchanged. -/
theorem chat_message_cap (req : ChatRequest) (newId clientIp : String)
    (s : SessionData) (now : Nat) (ai : AIResponse) (ex : String)
    (hcap : s.messages.length ≥ MAX_SESSION_MESSAGES) :
    (chat req newId clientIp (some s) now ai ex).response.message =
      "You've reached the maximum number of messages for this session. Please start a new conversation." ∧
    (chat req newId clientIp (some s) now ai ex).response.requires_action = false ∧
    (chat req newId clientIp (some s) now ai ex).generationCalled = false ∧
    (chat req newId clientIp (some s) now ai ex).session = s := by
  simp [chat, hcap]

/-- Witness for C7 at a session holding exactly 100 messages. -/
theorem chat_message_cap_witness :
    ({ session_id := "s",
       messages := List.replicate 100 ⟨"user", "x", 0⟩ } : SessionData).messages.length ≥
      MAX_SESSION_MESSAGES ∧
    ((chat { message := "one more" } "n" "ip"
        (some { session_id := "s", messages := List.replicate 100 ⟨"user", "x", 0⟩ }) 0
        { message := "g", is_ready_for_diagnosis := false } "e").response.message =
      "You've reached the maximum number of messages for this session. Please start a new conversation." ∧
     (chat { message := "one more" } "n" "ip"
        (some { session_id := "s", messages := List.replicate 100 ⟨"user", "x", 0⟩ }) 0
        { message := "g", is_ready_for_diagnosis := false } "e").response.requires_action = false ∧
     (chat { message := "one more" } "n" "ip"
        (some { session_id := "s", messages := List.replicate 100 ⟨"user", "x", 0⟩ }) 0
        { message := "g", is_ready_for_diagnosis := false } "e").generationCalled = false ∧
     (chat { message := "one more" } "n" "ip"
        (some { session_id := "s", messages := List.replicate 100 ⟨"user", "x", 0⟩ }) 0
        { message := "g", is_ready_for_diagnosis := false } "e").session =
       { session_id := "s", messages := List.replicate 100 ⟨"user", "x", 0⟩ }) :=
  ⟨by decide,
   chat_message_cap { message := "one more" } "n" "ip"
     { session_id := "s", messages := List.replicate 100 ⟨"user", "x", 0⟩ } 0
     { message := "g", is_ready_for_diagnosis := false } "e" (by decide)⟩

/-- C8. The status poll reports a stored "completed" status with a null or
missing diagnosis back to the caller as "processing". -/
theorem check_status_hides_missing_diagnosis (sid : String) (s : SessionData)
    (hstat : s.status = "completed") (hdiag : s.diagnosis = none) :
    check_status sid (some s) =
      Except.ok
        { session_id := sid, status := "processing",
          message := "Still processing..." } := by
  simp [check_status, hstat, hdiag, isTruthy]

/-- Witness for C8 at a concrete completed session with no diagnosis. -/
theorem check_status_hides_missing_diagnosis_witness :
    ({ session_id := "s", status := "completed" } : SessionData).status = "completed" ∧
    ({ session_id := "s", status := "completed" } : SessionData).diagnosis = none ∧
    check_status "s" (some { session_id := "s", status := "completed" }) =
      Except.ok
        { session_id := "s", status := "processing",
          message := "Still processing..." } :=
  ⟨by decide, by decide,
   check_status_hides_missing_diagnosis "s"
     { session_id := "s", status := "completed" } (by decide) (by decide)⟩

/-- Helper: the exact three-kwarg update the alert tool issues on dispatch
success succeeds and writes the three fields through the generic `setattr`
branch (the severity is passed as an enum member, not a string). -/
theorem update_context_alert_kwargs (m : CtxMap) (sid : String) (c : MCPContext)
    (h : CtxMap.find? m sid = some c) (v : Severity) (p : AutomationPayload) :
    update_context m sid
      [("alert_triggered", PyValue.bool true),
       ("alert_severity", PyValue.severity v),
       ("alert_payload_detail", PyValue.payload p)] =
      (Except.ok
        { c with
          alert_triggered := true, alert_severity := some v,
          alert_payload_detail := some p },
       CtxMap.setKey m sid
        { c with
          alert_triggered := true, alert_severity := some v,
          alert_payload_detail := some p }) := by
  unfold update_context
  rw [h]
  rfl

/-- C6. Calling the alert tool on an existing session with a severity string
that is not a valid `Severity` member produces the success outcome with the
severity coerced to LOW, and afterwards the session's Context Record has
`alert_severity = LOW` and `alert_triggered = true`. -/
theorem alert_invalid_severity_coerces_to_low (url : String) (m : CtxMap)
    (sid sev msg : String) (c : MCPContext)
    (h : CtxMap.find? m sid = some c)
    (hbad : Severity.ofString? (pyUpper sev) = none) :
    (N8NAlertTool.run url m sid sev msg).1 =
      "ALERT SUCCESS: " ++ Severity.LOW.value ++
      " alert sent successfully. Context updated for session " ++ sid ++
      ". Response: " ++
      (if url = "https://webhook.site/mock-n8n-endpoint" then
        "MOCK SUCCESS: Alert simulated and logged."
      else "SUCCESS: Alert sent to " ++ url ++ ".") ∧
    (∃ c', CtxMap.find? (N8NAlertTool.run url m sid sev msg).2 sid = some c' ∧
      c'.alert_severity = some Severity.LOW ∧ c'.alert_triggered = true) := by
  have hup := update_context_alert_kwargs m sid c h Severity.LOW
    { severity := Severity.LOW, region := c.region,
      asset_type := c.asset_type.value, message := msg }
  constructor
  · simp [N8NAlertTool.run, h, hbad, hup]
  · refine ⟨{ c with
      alert_triggered := true, alert_severity := some Severity.LOW,
      alert_payload_detail := some
        { severity := Severity.LOW, region := c.region,
          asset_type := c.asset_type.value, message := msg } }, ?_, rfl, rfl⟩
    simp [N8NAlertTool.run, h, hbad, hup, CtxMap.find?_setKey_self]

/-- Witness for C6 at a concrete one-session map and the invalid severity
string "urgent" (as in the spec's scenario). -/
theorem alert_invalid_severity_coerces_to_low_witness :
    CtxMap.find? [("s", { session_id := "s", query := "q", region := "r" })] "s" =
      some { session_id := "s", query := "q", region := "r" } ∧
    Severity.ofString? (pyUpper "urgent") = none ∧
    ((N8NAlertTool.run "https://example.invalid/hook"
        [("s", { session_id := "s", query := "q", region := "r" })]
        "s" "urgent" "Spray now").1 =
      "ALERT SUCCESS: " ++ Severity.LOW.value ++
      " alert sent successfully. Context updated for session " ++ "s" ++
      ". Response: " ++
      (if ("https://example.invalid/hook" : String) = "https://webhook.site/mock-n8n-endpoint" then
        "MOCK SUCCESS: Alert simulated and logged."
      else "SUCCESS: Alert sent to " ++ "https://example.invalid/hook" ++ ".") ∧
    (∃ c', CtxMap.find? (N8NAlertTool.run "https://example.invalid/hook"
        [("s", { session_id := "s", query := "q", region := "r" })]
        "s" "urgent" "Spray now").2 "s" = some c' ∧
      c'.alert_severity = some Severity.LOW ∧ c'.alert_triggered = true)) :=
  ⟨by decide, by decide,
   alert_invalid_severity_coerces_to_low "https://example.invalid/hook"
     [("s", { session_id := "s", query := "q", region := "r" })]
     "s" "urgent" "Spray now"
     { session_id := "s", query := "q", region := "r" } (by decide) (by decide)⟩

/-- C10. In the alert tool's `_run`, the webhook response status is the
hardcoded constant 200 on both branches, so the dispatch-failure branch (the
"ALERT FAILED (Status ...)" outcome that would leave the bus unmodified) is
unreachable: whatever the webhook URL and severity string, every call that
passes the session-existence check returns the success outcome and updates
the Context Record with `alert_triggered = true`. -/
theorem alert_dispatch_failure_unreachable (url : String) (m : CtxMap)
    (sid sev msg : String) (c : MCPContext)
    (h : CtxMap.find? m sid = some c) :
    (∃ rest, (N8NAlertTool.run url m sid sev msg).1 = "ALERT SUCCESS: " ++ rest) ∧
    (∃ c', CtxMap.find? (N8NAlertTool.run url m sid sev msg).2 sid = some c' ∧
      c'.alert_triggered = true) := by
  have hup := update_context_alert_kwargs m sid c h
    ((Severity.ofString? (pyUpper sev)).getD Severity.LOW)
    { severity := (Severity.ofString? (pyUpper sev)).getD Severity.LOW,
      region := c.region, asset_type := c.asset_type.value, message := msg }
  constructor
  · refine ⟨((Severity.ofString? (pyUpper sev)).getD Severity.LOW).value ++
      (" alert sent successfully. Context updated for session " ++ (sid ++
      (". Response: " ++
      (if url = "https://webhook.site/mock-n8n-endpoint" then
        "MOCK SUCCESS: Alert simulated and logged."
      else "SUCCESS: Alert sent to " ++ url ++ ".")))), ?_⟩
    simp [N8NAlertTool.run, h, hup, String.append_assoc]
  · refine ⟨{ c with
      alert_triggered := true,
      alert_severity := some ((Severity.ofString? (pyUpper sev)).getD Severity.LOW),
      alert_payload_detail := some
        { severity := (Severity.ofString? (pyUpper sev)).getD Severity.LOW,
          region := c.region, asset_type := c.asset_type.value,
          message := msg } }, ?_, rfl⟩
    simp [N8NAlertTool.run, h, hup, CtxMap.find?_setKey_self]

/-- Witness for C10 at a concrete map, a valid severity string and the real
default webhook URL. -/
theorem alert_dispatch_failure_unreachable_witness :
    CtxMap.find? [("s", { session_id := "s", query := "q", region := "r" })] "s" =
      some { session_id := "s", query := "q", region := "r" } ∧
    ((∃ rest, (N8NAlertTool.run
        "https://cindysidiushindi.app.n8n.cloud/webhook-test/agrosense-alert"
        [("s", { session_id := "s", query := "q", region := "r" })]
        "s" "HIGH" "Alert!").1 = "ALERT SUCCESS: " ++ rest) ∧
    (∃ c', CtxMap.find? (N8NAlertTool.run
        "https://cindysidiushindi.app.n8n.cloud/webhook-test/agrosense-alert"
        [("s", { session_id := "s", query := "q", region := "r" })]
        "s" "HIGH" "Alert!").2 "s" = some c' ∧
      c'.alert_triggered = true)) :=
  ⟨by decide,
   alert_dispatch_failure_unreachable
     "https://cindysidiushindi.app.n8n.cloud/webhook-test/agrosense-alert"
     [("s", { session_id := "s", query := "q", region := "r" })]
     "s" "HIGH" "Alert!"
     { session_id := "s", query := "q", region := "r" } (by decide)⟩

/-- Helper: `create_session` stores the returned record under the id and the
well-formed map then holds exactly one entry for it. -/
theorem create_session_stores (m : CtxMap) (sid q r : String)
    (hwf : CtxMap.countKey m sid ≤ 1) :
    CtxMap.find? (create_session m sid q r).2 sid =
      some (create_session m sid q r).1 ∧
    CtxMap.countKey (create_session m sid q r).2 sid = 1 := by
  cases h : CtxMap.find? m sid with
  | some c =>
    have h1 := CtxMap.one_le_countKey_of_find?_some m sid c h
    simp [create_session, h]
    omega
  | none =>
    have hk := CtxMap.find?_setKey_self m sid
      { session_id := sid, query := q, region := r }
    simp [create_session, h, hk, CtxMap.countKey_setKey_of_none m sid _ h]

/-- C9. `_contexts` is a class attribute of `MCPClient` and `__init__` creates
no instance attribute, so the session map is shared state of the class: a
session created through one instance is returned by `get_context` on any
other instance, and clearing it through either instance removes it for both.
(The well-formedness hypothesis is that a Python dict holds a key at most
once.) -/
theorem mcpclient_shared_class_state (a b : MCPClient) (cls : CtxMap)
    (sid q r : String)
    (ha : a.own_contexts = none) (hb : b.own_contexts = none)
    (hwf : CtxMap.countKey cls sid ≤ 1) :
    b.getContext (a.createSession cls sid q r).2.2 sid =
      some (a.createSession cls sid q r).1 ∧
    a.getContext (a.clearSession (a.createSession cls sid q r).2.2 sid).2 sid = none ∧
    b.getContext (a.clearSession (a.createSession cls sid q r).2.2 sid).2 sid = none ∧
    a.getContext (b.clearSession (a.createSession cls sid q r).2.2 sid).2 sid = none ∧
    b.getContext (b.clearSession (a.createSession cls sid q r).2.2 sid).2 sid = none := by
  have hs := create_session_stores cls sid q r hwf
  have hfind := hs.1
  have hcount := hs.2
  have herase : CtxMap.find?
      (CtxMap.eraseKey (create_session cls sid q r).2 sid) sid = none :=
    CtxMap.find?_eraseKey_self _ sid (by omega)
  simp [MCPClient.createSession, MCPClient.getContext, MCPClient.clearSession,
    MCPClient.resolveContexts, ha, hb, clear_session, hfind, herase]

/-- Witness for C9: two freshly constructed instances over an empty class
map. -/
theorem mcpclient_shared_class_state_witness :
    MCPClient.init.own_contexts = none ∧
    CtxMap.countKey [] "s" ≤ 1 ∧
    (MCPClient.init.getContext
        (MCPClient.init.createSession [] "s" "q" "r").2.2 "s" =
      some (MCPClient.init.createSession [] "s" "q" "r").1 ∧
    MCPClient.init.getContext
      (MCPClient.init.clearSession
        (MCPClient.init.createSession [] "s" "q" "r").2.2 "s").2 "s" = none ∧
    MCPClient.init.getContext
      (MCPClient.init.clearSession
        (MCPClient.init.createSession [] "s" "q" "r").2.2 "s").2 "s" = none ∧
    MCPClient.init.getContext
      (MCPClient.init.clearSession
        (MCPClient.init.createSession [] "s" "q" "r").2.2 "s").2 "s" = none ∧
    MCPClient.init.getContext
      (MCPClient.init.clearSession
        (MCPClient.init.createSession [] "s" "q" "r").2.2 "s").2 "s" = none) :=
  ⟨rfl, by decide,
   mcpclient_shared_class_state MCPClient.init MCPClient.init [] "s" "q" "r"
     rfl rfl (by decide)⟩

end Agrosense
